import Mathlib

/-!
Verification of the chip-package footprint generator (scripts/chipmod.py).

The geometry engine, document assembler and idempotent writer are embedded
shallowly: every numeric quantity is a rational (the source works in
millimetres), drawing primitives are opaque parameterized constructors, and
the per-package writer step is a pure function from the parsed content of an
existing file (if any) and the freshly generated document to a write decision.
-/

namespace Chipmod

/-- Drawing primitives and document nodes.  The primitive constructors
`fp_line`, `fp_text` and `pad` come from the external drawing library
(kicad_mod), which the spec describes as opaque externally-constructed
objects that the core only parameterizes; they are therefore embedded as
inductive constructors carrying exactly the arguments the core passes.
`atom`, `layerTag` and `teditTag` are the header nodes of the assembled
document: the bare atoms "module" and the footprint name, the
("layer", l) tag and the ("tedit", timestamp) tag. -/
inductive Element where
  | atom (s : String)
  | layerTag (l : String)
  | teditTag (t : Nat)
  | fp_line (p1 p2 : ℚ × ℚ) (layer : String) (width : ℚ)
  | fp_text (kind text : String) (pos : ℚ × ℚ × ℚ) (layer : String)
      (size : ℚ × ℚ) (thickness : ℚ)
  | pad (num : Nat) (padtype shape : String) (centre : ℚ × ℚ) (size : ℚ × ℚ)
      (layers : List String)
deriving DecidableEq

/-- The `silk` entry of a package configuration dictionary: the key may be
absent, may be the Python value None, or may hold a string. -/
inductive SilkField where
  | absent
  | pynone
  | str (s : String)
deriving DecidableEq

/-- One package configuration dictionary.  The literal registry entries carry
the five documented keys; the `name` key is absent (`none`) in the literal
table and is inserted by `main` before generation (chipmod.py line 250). -/
structure PackageSpec where
  pad_shape : ℚ × ℚ
  pitch : ℚ
  chip_shape : ℚ × ℚ
  terminal : ℚ
  silk : SilkField
  name : Option String
deriving DecidableEq

-- Constants (chipmod.py lines 96-128) --------------------------------------

/-- Courtyard clearance. -/
def ctyd_gap : ℚ := 0.25

/-- Courtyard grid. -/
def ctyd_grid : ℚ := 0.05

/-- Courtyard line width. -/
def ctyd_width : ℚ := 0.01

/-- Internal silk clearance from pads. -/
def silk_pad_igap : ℚ := 0.2

/-- Silk line width. -/
def silk_width : ℚ := 0.15

/-- Fab layer line width. -/
def fab_width : ℚ := 0.01

/-- Ref/Val font size (width x height). -/
def font_size : ℚ × ℚ := (1.0, 1.0)

/-- Ref/Val font thickness. -/
def font_thickness : ℚ := 0.15

/-- Ref/Val font spacing from centre to top/bottom edge. -/
def font_halfheight : ℚ := 0.7

-- Package registry (chipmod.py lines 23-94) ---------------------------------

def cfg0201 : PackageSpec :=
  ⟨(0.46, 0.42), 0.66, (0.6, 0.3), 0.15, SilkField.pynone, none⟩

def cfg0402 : PackageSpec :=
  ⟨(0.62, 0.62), 0.90, (1.00, 0.50), 0.30, SilkField.pynone, none⟩

def cfg0603 : PackageSpec :=
  ⟨(0.95, 1.00), 1.60, (1.60, 0.80), 0.35, SilkField.absent, none⟩

def cfg0603LED : PackageSpec :=
  ⟨(0.95, 1.00), 1.60, (1.60, 0.80), 0.25, SilkField.str "triangle", none⟩

def cfg0805 : PackageSpec :=
  ⟨(1.15, 1.45), 1.80, (2.00, 1.25), 0.50, SilkField.absent, none⟩

def cfg1206 : PackageSpec :=
  ⟨(1.15, 1.80), 3.00, (3.20, 1.60), 0.60, SilkField.absent, none⟩

def cfg0402L : PackageSpec :=
  ⟨(0.52, 0.52), 0.80, (1.00, 0.50), 0.30, SilkField.pynone, none⟩

def cfg0603L : PackageSpec :=
  ⟨(0.75, 0.90), 1.40, (1.60, 0.80), 0.35, SilkField.absent, none⟩

/-- The literal package registry `config`, in source order. -/
def config : List (String × PackageSpec) :=
  [("0201", cfg0201), ("0402", cfg0402), ("0603", cfg0603),
   ("0603-LED", cfg0603LED), ("0805", cfg0805), ("1206", cfg1206),
   ("0402-L", cfg0402L), ("0603-L", cfg0603L)]

/-- Sample configuration with an explicit "external" silk entry. -/
def silkExternalConf : PackageSpec :=
  ⟨(1, 1), 2, (2, 1), 0.5, SilkField.str "external", none⟩

/-- Sample configuration with an explicit "pin1" silk entry. -/
def silkPin1Conf : PackageSpec :=
  ⟨(1, 1), 2, (2, 1), 0.5, SilkField.str "pin1", none⟩

/-- Sample configuration with a silk entry matching no known variant. -/
def silkOtherConf : PackageSpec :=
  ⟨(1, 1), 2, (2, 1), 0.5, SilkField.str "unknown", none⟩

-- External drawing helper ----------------------------------------------------

/-- Result of `draw_square`: the four corner points and the four boundary
line segments. -/
structure SquareResult where
  nw : ℚ × ℚ
  ne : ℚ × ℚ
  se : ℚ × ℚ
  sw : ℚ × ℚ
  sq : List Element
deriving DecidableEq

/-- Modelled from the spec: `draw_square` lives in kicad_mod, which is not
under src/.  The spec describes it as the rectangle-from-corners primitive
drawing a centred rectangle of the given width and height ("draws the chip
body as a centered rectangle of chip_shape"; a rectangle is "derived from
four corner points of lines").  It returns the four corners (KiCad Y axis
grows downward, so north is negative Y) and the four boundary segments. -/
def draw_square (width height : ℚ) (centre : ℚ × ℚ) (layer : String)
    (thickness : ℚ) : SquareResult :=
  let nw : ℚ × ℚ := (centre.1 - width/2, centre.2 - height/2)
  let ne : ℚ × ℚ := (centre.1 + width/2, centre.2 - height/2)
  let se : ℚ × ℚ := (centre.1 + width/2, centre.2 + height/2)
  let sw : ℚ × ℚ := (centre.1 - width/2, centre.2 + height/2)
  ⟨nw, ne, se, sw,
   [Element.fp_line nw ne layer thickness,
    Element.fp_line ne se layer thickness,
    Element.fp_line se sw layer thickness,
    Element.fp_line sw nw layer thickness]⟩

-- Geometry engine (chipmod.py lines 140-233) ---------------------------------

/-- Reading `conf['name']`; `main` sets this key before any engine function
runs, so the default never fires in any run of the program. -/
def confName (conf : PackageSpec) : String := conf.name.getD ""

/-- Generate val and ref labels (chipmod.py lines 140-148). -/
def refs (conf : PackageSpec) : List Element :=
  let x := conf.pitch/2 + conf.pad_shape.1/2 + ctyd_gap + font_halfheight
  [Element.fp_text "reference" "REF**" (-x, 0, 90) "F.Fab"
     font_size font_thickness,
   Element.fp_text "value" (confName conf) (x, 0, 90) "F.Fab"
     font_size font_thickness]

/-- Generate a drawing of the chip on the Fab layer
(chipmod.py lines 151-161). -/
def fab (conf : PackageSpec) : List Element :=
  let w := conf.chip_shape.1
  let h := conf.chip_shape.2
  let t := conf.terminal
  let r := draw_square w h (0, 0) "F.Fab" fab_width
  r.sq ++
    [Element.fp_line (r.nw.1 + t, -h/2) (r.nw.1 + t, h/2) "F.Fab" fab_width,
     Element.fp_line (r.ne.1 - t, -h/2) (r.ne.1 - t, h/2) "F.Fab" fab_width]

/-- Draw internal silkscreen (chipmod.py lines 164-169). -/
def internal_silk (conf : PackageSpec) : List Element :=
  let w := conf.pitch - conf.pad_shape.1 - 2*silk_pad_igap
  let h := conf.chip_shape.2 - silk_width
  (draw_square w h (0, 0) "F.SilkS" silk_width).sq

/-- Draw external silkscreen (chipmod.py lines 172-175): a no-op. -/
def external_silk (_conf : PackageSpec) : List Element := []

/-- Draw a triangle silkscreen pointing to pin 1
(chipmod.py lines 178-186). -/
def triangle_silk (conf : PackageSpec) : List Element :=
  let w := conf.pitch - conf.pad_shape.1 - 2*silk_pad_igap
  let h := conf.chip_shape.2 - silk_width
  [Element.fp_line (-w/2, 0) (w/2, -h/2) "F.SilkS" silk_width,
   Element.fp_line (-w/2, 0) (w/2, h/2) "F.SilkS" silk_width,
   Element.fp_line (w/2, -h/2) (w/2, h/2) "F.SilkS" silk_width]

/-- Draw a small pin1 indicator on the silkscreen
(chipmod.py lines 189-192): a no-op. -/
def pin1_silk (_conf : PackageSpec) : List Element := []

/-- Silkscreen dispatcher (chipmod.py lines 195-206):
`s = conf.get('silk', 'internal')` resolves an absent key to "internal";
an explicit None (or any unrecognised string) falls through every branch
to the final `else` and yields the empty list. -/
def silk (conf : PackageSpec) : List Element :=
  match conf.silk with
  | SilkField.absent => internal_silk conf
  | SilkField.pynone => []
  | SilkField.str s =>
    if s = "internal" then internal_silk conf
    else if s = "external" then external_silk conf
    else if s = "triangle" then triangle_silk conf
    else if s = "pin1" then pin1_silk conf
    else []

/-- Unrounded courtyard width (chipmod.py line 212). -/
def ctydWidthRaw (conf : PackageSpec) : ℚ :=
  conf.pad_shape.1 + conf.pitch + 2*ctyd_gap

/-- Unrounded courtyard height (chipmod.py line 213). -/
def ctydHeightRaw (conf : PackageSpec) : ℚ :=
  conf.pad_shape.2 + 2*ctyd_gap

/-- Grid-snapped courtyard width (chipmod.py line 218):
`width = grid * int(math.ceil(width / (2*ctyd_grid)))` with
`grid = 2*ctyd_grid`. -/
def ctydWidth (conf : PackageSpec) : ℚ :=
  (2*ctyd_grid) * (⌈ctydWidthRaw conf / (2*ctyd_grid)⌉ : ℚ)

/-- Grid-snapped courtyard height (chipmod.py line 219). -/
def ctydHeight (conf : PackageSpec) : ℚ :=
  (2*ctyd_grid) * (⌈ctydHeightRaw conf / (2*ctyd_grid)⌉ : ℚ)

/-- Draw a courtyard around the part (chipmod.py lines 209-223). -/
def ctyd (conf : PackageSpec) : List Element :=
  (draw_square (ctydWidth conf) (ctydHeight conf) (0, 0) "F.CrtYd"
    ctyd_width).sq

/-- Place the part pads (chipmod.py lines 226-233). -/
def pads (conf : PackageSpec) : List Element :=
  let x := conf.pitch / 2
  let layers := ["F.Cu", "F.Mask", "F.Paste"]
  [Element.pad 1 "smd" "rect" (-x, 0) conf.pad_shape layers,
   Element.pad 2 "smd" "rect" (x, 0) conf.pad_shape layers]

-- Document assembler (chipmod.py lines 236-244) ------------------------------

/-- Assemble the footprint document (chipmod.py lines 236-244).  The current
time `t` (Python `int(time.time())`, hex-formatted into the tedit tag) is an
explicit parameter.  The source serializes the tree with the external
`sexp_generate`; per the spec's round-trip property, serializing and
re-parsing is the identity on the tree, so the document is kept as a tree. -/
def footprint (conf : PackageSpec) (t : Nat) : List Element :=
  [Element.atom "module", Element.atom (confName conf),
   Element.layerTag "F.Cu", Element.teditTag t]
  ++ refs conf ++ fab conf ++ silk conf ++ ctyd conf ++ pads conf

-- Idempotent writer (chipmod.py lines 247-265) -------------------------------

/-- Whether a parsed top-level node's head is "tedit" (the comparison
`n[0] != "tedit"` in chipmod.py line 258-259). -/
def isTedit : Element → Bool
  | Element.teditTag _ => true
  | _ => false

/-- Drop every element whose head is "tedit"
(chipmod.py lines 258-259). -/
def stripTedit (doc : List Element) : List Element :=
  doc.filter (fun e => !(isTedit e))

/-- `conf['name'] = name` (chipmod.py line 250): the registry dictionary is
mutated in place, gaining a `name` key. -/
def mainConf (key : String) (conf : PackageSpec) : PackageSpec :=
  ⟨conf.pad_shape, conf.pitch, conf.chip_shape, conf.terminal, conf.silk,
   some key⟩

/-- The per-package write decision of `main` (chipmod.py lines 254-265):
`existing` is the parsed content of the target file when one exists.
Returns `true` exactly when the file is (re)written.  The spec's round-trip
property identifies the parse of the serialized new document with the
document tree itself. -/
def mainWrites (existing : Option (List Element)) (newDoc : List Element) :
    Bool :=
  match existing with
  | none => true
  | some old => if stripTedit newDoc = stripTedit old then false else true

end Chipmod

-- Helper lemmas ---------------------------------------------------------------

namespace Chipmod

/-- The silkscreen dispatcher yields the internal rectangle, the triangle, or
nothing. -/
lemma silk_cases (conf : PackageSpec) :
    silk conf = internal_silk conf ∨ silk conf = triangle_silk conf ∨
      silk conf = [] := by
  obtain ⟨ps, pi, cs, te, si, na⟩ := conf
  cases si with
  | absent => exact Or.inl rfl
  | pynone => exact Or.inr (Or.inr rfl)
  | str s =>
    simp only [silk]
    split_ifs <;> simp [external_silk, pin1_silk]

/-- No silkscreen element is a tedit tag. -/
lemma isTedit_silk (conf : PackageSpec) :
    ∀ e ∈ silk conf, isTedit e = false := by
  intro e he
  rcases silk_cases conf with h | h | h <;> rw [h] at he
  · simp [internal_silk, draw_square] at he
    rcases he with h1 | h1 | h1 | h1 <;> subst h1 <;> rfl
  · simp [triangle_silk] at he
    rcases he with h1 | h1 | h1 <;> subst h1 <;> rfl
  · simp at he

/-- Normal form of a document after the writer strips tedit elements: exactly
the tedit header tag disappears, every other element survives. -/
lemma stripTedit_footprint (conf : PackageSpec) (t : Nat) :
    stripTedit (footprint conf t) =
      [Element.atom "module", Element.atom (confName conf),
       Element.layerTag "F.Cu"]
      ++ refs conf ++ fab conf ++ silk conf ++ ctyd conf ++ pads conf := by
  simp [stripTedit, footprint, List.filter_append, refs, fab, ctyd, pads,
    draw_square, isTedit]
  intro a ha
  have h := isTedit_silk conf a ha
  simpa [isTedit] using h

end Chipmod

namespace Chipmod

/-- A stripped document determines every geometric field of the spec that
produced it: the fabrication lines pin down chip_shape and terminal, and the
pad elements pin down pitch and pad_shape. -/
lemma strip_eq_fields (s s' : PackageSpec) (t1 t2 : Nat)
    (h : stripTedit (footprint s t1) = stripTedit (footprint s' t2)) :
    s.pad_shape = s'.pad_shape ∧ s.pitch = s'.pitch ∧
    s.chip_shape = s'.chip_shape ∧ s.terminal = s'.terminal := by
  rw [stripTedit_footprint, stripTedit_footprint] at h
  have h5 := congrArg (fun l => l[5]?) h
  have h9 := congrArg (fun l => l[9]?) h
  have hp := congrArg (fun l => l.reverse[0]?) h
  simp [refs, fab, draw_square, List.append_assoc] at h5 h9
  simp [List.reverse_append, ctyd, pads, draw_square] at hp
  obtain ⟨hw, hh⟩ := h5
  obtain ⟨hx, hps⟩ := hp
  refine ⟨hps, by linarith, ?_, by linarith [h9.1]⟩
  rw [Prod.ext_iff]
  constructor <;> linarith

end Chipmod

-- Claim theorems --------------------------------------------------------------

namespace Chipmod

/-- Claim C2: for every PackageSpec, the courtyard is a centered rectangle
whose width starts as pad width + pitch + 2*clearance and height as pad
height + 2*clearance, each then rounded up to a multiple of the fixed grid
step; the resulting width and height are each an exact integer multiple of
the grid step (0.05 mm) and are at least the unrounded computed value
(ceiling, never floor or nearest). -/
theorem claim_C2_courtyard_grid (conf : PackageSpec) :
    ctydWidthRaw conf = conf.pad_shape.1 + conf.pitch + 2*ctyd_gap ∧
    ctydHeightRaw conf = conf.pad_shape.2 + 2*ctyd_gap ∧
    (∃ kw : ℤ, ctydWidth conf = (kw : ℚ) * ctyd_grid) ∧
    (∃ kh : ℤ, ctydHeight conf = (kh : ℚ) * ctyd_grid) ∧
    ctydWidthRaw conf ≤ ctydWidth conf ∧
    ctydHeightRaw conf ≤ ctydHeight conf ∧
    ctyd conf =
      (draw_square (ctydWidth conf) (ctydHeight conf) (0, 0) "F.CrtYd"
        ctyd_width).sq := by
  refine ⟨rfl, rfl,
    ⟨2*⌈ctydWidthRaw conf / (2*ctyd_grid)⌉, by rw [ctydWidth]; push_cast; ring⟩,
    ⟨2*⌈ctydHeightRaw conf / (2*ctyd_grid)⌉, by rw [ctydHeight]; push_cast; ring⟩,
    ?_, ?_, rfl⟩
  · have h := Int.le_ceil (ctydWidthRaw conf / (2*ctyd_grid))
    rw [ctydWidth]
    norm_num [ctyd_grid] at h ⊢
    linarith
  · have h := Int.le_ceil (ctydHeightRaw conf / (2*ctyd_grid))
    rw [ctydHeight]
    norm_num [ctyd_grid] at h ⊢
    linarith

/-- Claim C3: for every PackageSpec, exactly two surface-mount rectangular
pads are produced, centered at (-pitch/2, 0) and (+pitch/2, 0), each of
dimensions pad_shape, on the copper, solder-mask and paste layers; pad 1 is
always the left one and pad 2 the right one. -/
theorem claim_C3_pad_placement (conf : PackageSpec) :
    pads conf =
      [Element.pad 1 "smd" "rect" (-(conf.pitch/2), 0) conf.pad_shape
         ["F.Cu", "F.Mask", "F.Paste"],
       Element.pad 2 "smd" "rect" (conf.pitch/2, 0) conf.pad_shape
         ["F.Cu", "F.Mask", "F.Paste"]] := rfl

/-- Claim C4: the silkscreen dispatcher selects by the spec's silk field:
an absent field behaves as "internal" and returns the internal rectangle's
four segments; "external" and "pin1" return empty output; and any value not
matching a known variant, including an explicit None, returns empty
output. -/
theorem claim_C4_silk_dispatch (conf : PackageSpec) :
    (conf.silk = SilkField.absent →
      silk conf = internal_silk conf ∧
      internal_silk conf =
        (draw_square (conf.pitch - conf.pad_shape.1 - 2*silk_pad_igap)
          (conf.chip_shape.2 - silk_width) (0, 0) "F.SilkS" silk_width).sq ∧
      (internal_silk conf).length = 4) ∧
    (conf.silk = SilkField.str "external" → silk conf = []) ∧
    (conf.silk = SilkField.str "pin1" → silk conf = []) ∧
    (conf.silk = SilkField.pynone → silk conf = []) ∧
    (∀ v, conf.silk = SilkField.str v → v ≠ "internal" → v ≠ "external" →
      v ≠ "triangle" → v ≠ "pin1" → silk conf = []) := by
  obtain ⟨ps, pi, cs, te, si, na⟩ := conf
  refine ⟨?_, ?_, ?_, ?_, ?_⟩
  · intro h
    dsimp only at h
    subst h
    exact ⟨rfl, rfl, rfl⟩
  · intro h
    dsimp only at h
    subst h
    rfl
  · intro h
    dsimp only at h
    subst h
    rfl
  · intro h
    dsimp only at h
    subst h
    rfl
  · intro v h hv1 hv2 hv3 hv4
    dsimp only at h
    subst h
    simp only [silk]
    rw [if_neg hv1, if_neg hv2, if_neg hv3, if_neg hv4]

/-- Witness for claim C4 at concrete registry entries: "0603" (silk key
absent), sample "external", "pin1" and unrecognised entries, and "0402"
(silk explicitly None). -/
theorem claim_C4_silk_dispatch_witness :
    silk cfg0603 = internal_silk cfg0603 ∧ silk silkExternalConf = [] ∧
    silk silkPin1Conf = [] ∧ silk cfg0402 = [] ∧ silk silkOtherConf = [] :=
  ⟨((claim_C4_silk_dispatch cfg0603).1 rfl).1,
   (claim_C4_silk_dispatch silkExternalConf).2.1 rfl,
   (claim_C4_silk_dispatch silkPin1Conf).2.2.1 rfl,
   (claim_C4_silk_dispatch cfg0402).2.2.2.1 rfl,
   (claim_C4_silk_dispatch silkOtherConf).2.2.2.2 "unknown" rfl (by decide)
     (by decide) (by decide) (by decide)⟩

/-- Claim C5: for a spec with silk = "triangle", the silkscreen output is
exactly three line segments forming a closed right-pointing triangle whose
apex sits at the left edge center (-w/2, 0) and whose base is the right
edge, with w and h the same dimensions used by the "internal" variant
(w = pitch - pad width - 2*clearance, h = chip height - one stroke
width). -/
theorem claim_C5_triangle_silk (conf : PackageSpec)
    (h : conf.silk = SilkField.str "triangle") :
    silk conf =
      [Element.fp_line
         (-(conf.pitch - conf.pad_shape.1 - 2*silk_pad_igap)/2, 0)
         ((conf.pitch - conf.pad_shape.1 - 2*silk_pad_igap)/2,
          -(conf.chip_shape.2 - silk_width)/2) "F.SilkS" silk_width,
       Element.fp_line
         (-(conf.pitch - conf.pad_shape.1 - 2*silk_pad_igap)/2, 0)
         ((conf.pitch - conf.pad_shape.1 - 2*silk_pad_igap)/2,
          (conf.chip_shape.2 - silk_width)/2) "F.SilkS" silk_width,
       Element.fp_line
         ((conf.pitch - conf.pad_shape.1 - 2*silk_pad_igap)/2,
          -(conf.chip_shape.2 - silk_width)/2)
         ((conf.pitch - conf.pad_shape.1 - 2*silk_pad_igap)/2,
          (conf.chip_shape.2 - silk_width)/2) "F.SilkS" silk_width] ∧
    internal_silk conf =
      (draw_square (conf.pitch - conf.pad_shape.1 - 2*silk_pad_igap)
        (conf.chip_shape.2 - silk_width) (0, 0) "F.SilkS" silk_width).sq := by
  obtain ⟨ps, pi, cs, te, si, na⟩ := conf
  dsimp only at h
  subst h
  exact ⟨rfl, rfl⟩

/-- Witness for claim C5 at the "0603-LED" registry entry, whose silk field
is the string "triangle". -/
theorem claim_C5_triangle_silk_witness :
    silk cfg0603LED =
      [Element.fp_line
         (-(cfg0603LED.pitch - cfg0603LED.pad_shape.1 - 2*silk_pad_igap)/2, 0)
         ((cfg0603LED.pitch - cfg0603LED.pad_shape.1 - 2*silk_pad_igap)/2,
          -(cfg0603LED.chip_shape.2 - silk_width)/2) "F.SilkS" silk_width,
       Element.fp_line
         (-(cfg0603LED.pitch - cfg0603LED.pad_shape.1 - 2*silk_pad_igap)/2, 0)
         ((cfg0603LED.pitch - cfg0603LED.pad_shape.1 - 2*silk_pad_igap)/2,
          (cfg0603LED.chip_shape.2 - silk_width)/2) "F.SilkS" silk_width,
       Element.fp_line
         ((cfg0603LED.pitch - cfg0603LED.pad_shape.1 - 2*silk_pad_igap)/2,
          -(cfg0603LED.chip_shape.2 - silk_width)/2)
         ((cfg0603LED.pitch - cfg0603LED.pad_shape.1 - 2*silk_pad_igap)/2,
          (cfg0603LED.chip_shape.2 - silk_width)/2) "F.SilkS" silk_width] ∧
    internal_silk cfg0603LED =
      (draw_square (cfg0603LED.pitch - cfg0603LED.pad_shape.1 - 2*silk_pad_igap)
        (cfg0603LED.chip_shape.2 - silk_width) (0, 0) "F.SilkS" silk_width).sq :=
  claim_C5_triangle_silk cfg0603LED rfl

end Chipmod

namespace Chipmod

/-- Claim C6: for every PackageSpec, the fabrication-layer drawing is a
rectangle of chip_shape centered at the origin plus two vertical marks inset
by the terminal width from each short edge; for the "0402" registry entry
the pads are centered at x = ±0.45, the fabrication rectangle spans ±0.50
in X and ±0.25 in Y, the terminal marks lie at x = ±0.20, and the
silkscreen output is empty. -/
theorem claim_C6_fab_and_0402 :
    (∀ conf : PackageSpec, fab conf =
      [Element.fp_line (-(conf.chip_shape.1/2), -(conf.chip_shape.2/2))
         (conf.chip_shape.1/2, -(conf.chip_shape.2/2)) "F.Fab" fab_width,
       Element.fp_line (conf.chip_shape.1/2, -(conf.chip_shape.2/2))
         (conf.chip_shape.1/2, conf.chip_shape.2/2) "F.Fab" fab_width,
       Element.fp_line (conf.chip_shape.1/2, conf.chip_shape.2/2)
         (-(conf.chip_shape.1/2), conf.chip_shape.2/2) "F.Fab" fab_width,
       Element.fp_line (-(conf.chip_shape.1/2), conf.chip_shape.2/2)
         (-(conf.chip_shape.1/2), -(conf.chip_shape.2/2)) "F.Fab" fab_width,
       Element.fp_line
         (conf.terminal - conf.chip_shape.1/2, -(conf.chip_shape.2/2))
         (conf.terminal - conf.chip_shape.1/2, conf.chip_shape.2/2)
         "F.Fab" fab_width,
       Element.fp_line
         (conf.chip_shape.1/2 - conf.terminal, -(conf.chip_shape.2/2))
         (conf.chip_shape.1/2 - conf.terminal, conf.chip_shape.2/2)
         "F.Fab" fab_width]) ∧
    config.lookup "0402" = some cfg0402 ∧
    pads (mainConf "0402" cfg0402) =
      [Element.pad 1 "smd" "rect" (-0.45, 0) (0.62, 0.62)
         ["F.Cu", "F.Mask", "F.Paste"],
       Element.pad 2 "smd" "rect" (0.45, 0) (0.62, 0.62)
         ["F.Cu", "F.Mask", "F.Paste"]] ∧
    fab (mainConf "0402" cfg0402) =
      [Element.fp_line (-0.5, -0.25) (0.5, -0.25) "F.Fab" fab_width,
       Element.fp_line (0.5, -0.25) (0.5, 0.25) "F.Fab" fab_width,
       Element.fp_line (0.5, 0.25) (-0.5, 0.25) "F.Fab" fab_width,
       Element.fp_line (-0.5, 0.25) (-0.5, -0.25) "F.Fab" fab_width,
       Element.fp_line (-0.2, -0.25) (-0.2, 0.25) "F.Fab" fab_width,
       Element.fp_line (0.2, -0.25) (0.2, 0.25) "F.Fab" fab_width] ∧
    silk (mainConf "0402" cfg0402) = [] := by
  refine ⟨?_, rfl, ?_, ?_, rfl⟩
  · intro conf
    simp [fab, draw_square]
    ring_nf
    simp
  · norm_num [pads, mainConf, cfg0402]
  · norm_num [fab, mainConf, cfg0402, draw_square]

/-- Claim C7: for every PackageSpec, exactly two text labels are placed on
the fabrication layer at (-x, 0) and (+x, 0) with x = pitch/2 + pad
width/2 + courtyard clearance + font half-height, both rotated 90 degrees;
the left label is the reference placeholder "REF**" and the right label's
content is the package name. -/
theorem claim_C7_ref_val_labels (conf : PackageSpec) (n : String)
    (h : conf.name = some n) :
    refs conf =
      [Element.fp_text "reference" "REF**"
         (-(conf.pitch/2 + conf.pad_shape.1/2 + ctyd_gap + font_halfheight),
          0, 90) "F.Fab" font_size font_thickness,
       Element.fp_text "value" n
         (conf.pitch/2 + conf.pad_shape.1/2 + ctyd_gap + font_halfheight,
          0, 90) "F.Fab" font_size font_thickness] := by
  simp [refs, confName, h]

/-- Witness for claim C7 at the "0402" registry entry after `main` set its
name key. -/
theorem claim_C7_ref_val_labels_witness :
    refs (mainConf "0402" cfg0402) =
      [Element.fp_text "reference" "REF**"
         (-((mainConf "0402" cfg0402).pitch/2 +
            (mainConf "0402" cfg0402).pad_shape.1/2 + ctyd_gap +
            font_halfheight), 0, 90) "F.Fab" font_size font_thickness,
       Element.fp_text "value" "0402"
         ((mainConf "0402" cfg0402).pitch/2 +
          (mainConf "0402" cfg0402).pad_shape.1/2 + ctyd_gap +
          font_halfheight, 0, 90) "F.Fab" font_size font_thickness] :=
  claim_C7_ref_val_labels (mainConf "0402" cfg0402) "0402" rfl

/-- Claim C8: for every package, the assembled document is the header
(name, copper layer tag, tedit timestamp) followed by the engine outputs in
exactly the fixed order reference/value text, fabrication, silkscreen,
courtyard, pads; the component lengths witness where each block sits. -/
theorem claim_C8_document_order (conf : PackageSpec) (t : Nat) :
    footprint conf t =
      [Element.atom "module", Element.atom (confName conf),
       Element.layerTag "F.Cu", Element.teditTag t]
      ++ refs conf ++ fab conf ++ silk conf ++ ctyd conf ++ pads conf ∧
    (refs conf).length = 2 ∧ (fab conf).length = 6 ∧
    (ctyd conf).length = 4 ∧ (pads conf).length = 2 ∧
    (footprint conf t).take 4 =
      [Element.atom "module", Element.atom (confName conf),
       Element.layerTag "F.Cu", Element.teditTag t] :=
  ⟨rfl, rfl, rfl, rfl, rfl, rfl⟩

/-- Counterexample to claim C9: generating the "0402" footprint mutates the
registry entry (chipmod.py line 250 adds a name key), so afterwards the
entry no longer equals the literal configuration table's record. -/
theorem claim_C9_registry_mutation_cex : mainConf "0402" cfg0402 ≠ cfg0402 := by
  intro h
  exact Option.noConfusion (congrArg PackageSpec.name h)

/-- Claim C9 as amended: after generating a package's footprint the five
documented configuration fields of its registry entry are unchanged, but a
name field holding the package's registry key has been added. -/
theorem claim_C9_registry_amended (key : String) (conf : PackageSpec) :
    (mainConf key conf).pad_shape = conf.pad_shape ∧
    (mainConf key conf).pitch = conf.pitch ∧
    (mainConf key conf).chip_shape = conf.chip_shape ∧
    (mainConf key conf).terminal = conf.terminal ∧
    (mainConf key conf).silk = conf.silk ∧
    (mainConf key conf).name = some key :=
  ⟨rfl, rfl, rfl, rfl, rfl, rfl⟩

/-- Claim C10: the generated footprint document apart from its tedit element
is a deterministic function of the spec's fields alone: two generations from
equal specs at any two times produce element-wise identical documents once
the tedit element is removed from each. -/
theorem claim_C10_determinism_mod_tedit (conf : PackageSpec) (t1 t2 : Nat) :
    stripTedit (footprint conf t1) = stripTedit (footprint conf t2) := by
  rw [stripTedit_footprint, stripTedit_footprint]

/-- Claim C1: the writer skips writing exactly when the tedit-stripped
element sequences agree; an immediate second run over an unchanged spec
performs zero writes; and changing any geometric field of the spec between
runs forces a rewrite. -/
theorem claim_C1_idempotent_writer :
    (∀ old newDoc, mainWrites (some old) newDoc = false ↔
        stripTedit newDoc = stripTedit old) ∧
    (∀ (conf : PackageSpec) (t1 t2 : Nat),
        mainWrites (some (footprint conf t1)) (footprint conf t2) = false) ∧
    (∀ (s s' : PackageSpec) (t1 t2 : Nat),
        s.name = s'.name → s.silk = s'.silk →
        (s.pad_shape ≠ s'.pad_shape ∨ s.pitch ≠ s'.pitch ∨
         s.chip_shape ≠ s'.chip_shape ∨ s.terminal ≠ s'.terminal) →
        mainWrites (some (footprint s t1)) (footprint s' t2) = true) := by
  refine ⟨?_, ?_, ?_⟩
  · intro old newDoc
    simp only [mainWrites]
    split_ifs with h <;> simp [h]
  · intro conf t1 t2
    simp only [mainWrites]
    rw [if_pos (by rw [stripTedit_footprint, stripTedit_footprint])]
  · intro s s' t1 t2 hn hs hdiff
    have hne : ¬ stripTedit (footprint s' t2) = stripTedit (footprint s t1) := by
      intro heq
      obtain ⟨h1, h2, h3, h4⟩ := strip_eq_fields s' s t2 t1 heq
      rcases hdiff with hd | hd | hd | hd
      exacts [hd h1.symm, hd h2.symm, hd h3.symm, hd h4.symm]
    simp only [mainWrites]
    rw [if_neg hne]

/-- Witness for claim C1: the "0402" and "0402-L" entries share name and
silk fields but differ in pad_shape, so a run over one against a file
written for the other rewrites the file. -/
theorem claim_C1_idempotent_writer_witness :
    mainWrites (some (footprint cfg0402 1)) (footprint cfg0402L 2) = true :=
  claim_C1_idempotent_writer.2.2 cfg0402 cfg0402L 1 2 rfl rfl
    (Or.inl (by norm_num [cfg0402, cfg0402L]))

end Chipmod
